import Mathlib

/-!
Verification of the HymyPassi survey flow (src/App.tsx).

The program is a guided survey: Start → Q1..Q4 (star ratings) → Q5 (yes/no)
→ optional OpenFeedback → Service → Submit, with a single in-memory answer
record mutated through partial patches.  We embed the `SurveyAnswers`
record, the `update` merge of `SurveyProvider`, the per-screen gating and
navigation logic, and a small navigation-stack state machine mirroring the
react-navigation calls made by the screens.  Components the specification
describes but that have no code in the repository (the persistence layer,
the CSV export, the tri-state flag storage encoding) are modelled from the
spec and marked as such in their doc comments.
-/

namespace HymyPassi

/-- The `SurveyAnswers` record of src/App.tsx: four star ratings with the
0 sentinel for "unanswered", the tri-state `q5 : boolean | null` flag,
free-text feedback and the chosen service category. -/
structure SurveyAnswers where
  q1 : Nat
  q2 : Nat
  q3 : Nat
  q4 : Nat
  q5 : Option Bool
  feedback : String
  service : String
deriving DecidableEq, Repr

/-- The initial state passed to `useState` in `SurveyProvider`. -/
def initialAnswers : SurveyAnswers :=
  { q1 := 0, q2 := 0, q3 := 0, q4 := 0, q5 := none, feedback := "", service := "" }

/-- A `Partial<SurveyAnswers>` patch: each field is either absent (`none`)
or present with a value. -/
structure SurveyPatch where
  q1 : Option Nat := none
  q2 : Option Nat := none
  q3 : Option Nat := none
  q4 : Option Nat := none
  q5 : Option (Option Bool) := none
  feedback : Option String := none
  service : Option String := none
deriving DecidableEq, Repr

/-- `SurveyProvider.update`: `setAnswers((s) => ({ ...s, ...patch }))` —
fields present in the patch overwrite, absent fields are kept. -/
def update (s : SurveyAnswers) (p : SurveyPatch) : SurveyAnswers :=
  { q1 := p.q1.getD s.q1
    q2 := p.q2.getD s.q2
    q3 := p.q3.getD s.q3
    q4 := p.q4.getD s.q4
    q5 := p.q5.getD s.q5
    feedback := p.feedback.getD s.feedback
    service := p.service.getD s.service }

/-- The `StarKeys` type: which rating field a generic star screen edits. -/
inductive StarKey
  | q1 | q2 | q3 | q4
deriving DecidableEq, Repr

/-- Dynamic field read `answers[keyName]` for a star key. -/
def SurveyAnswers.star (a : SurveyAnswers) : StarKey → Nat
  | .q1 => a.q1
  | .q2 => a.q2
  | .q3 => a.q3
  | .q4 => a.q4

/-- Dynamic single-field patch `{ [keyName]: v }` for a star key. -/
def starPatch (k : StarKey) (v : Nat) : SurveyPatch :=
  match k with
  | .q1 => { q1 := some v }
  | .q2 => { q2 := some v }
  | .q3 => { q3 := some v }
  | .q4 => { q4 := some v }

/-- JavaScript truthiness of a (non-NaN) number: `!n` is true iff `n = 0`. -/
def numTruthy (n : Nat) : Bool := !(n == 0)

/-- JavaScript truthiness of a string: `!s` is true iff `s = ""`. -/
def strTruthy (s : String) : Bool := !(s == "")

/-- JavaScript truthiness of `boolean | null`: truthy iff the value is
exactly `true`. -/
def q5Truthy : Option Bool → Bool
  | some true => true
  | _ => false

/-- The screens of the `RootStackParamList`. -/
inductive Screen
  | Start | Q1 | Q2 | Q3 | Q4 | Q5 | OpenFeedback | Service | Submit
deriving DecidableEq, Repr

/-- The screen on which a star key is edited (from `initialParams`). -/
def starScreen : StarKey → Screen
  | .q1 => .Q1
  | .q2 => .Q2
  | .q3 => .Q3
  | .q4 => .Q4

/-- The `next` route parameter of each star screen (from `initialParams`). -/
def starNextScreen : StarKey → Screen
  | .q1 => .Q2
  | .q2 => .Q3
  | .q3 => .Q4
  | .q4 => .Q5

/-- `disabled={!answers[keyName]}` on the "Seuraava" button of
`GenericStarQuestion`. -/
def ratingNextDisabled (a : SurveyAnswers) (k : StarKey) : Bool :=
  !(numTruthy (a.star k))

/-- `disabled={answers.q5 === null}` on the "Seuraava" button of
`Question5`. -/
def q5NextDisabled (a : SurveyAnswers) : Bool := a.q5 == none

/-- `navigation.navigate(answers.q5 ? "OpenFeedback" : "Service")` in
`Question5`. -/
def q5NextTarget (a : SurveyAnswers) : Screen :=
  if q5Truthy a.q5 then .OpenFeedback else .Service

/-- The `OpenFeedback` screen's "Seuraava" button always navigates to
`Service`, with no `disabled` attribute. -/
def openFeedbackNextScreen : Screen := .Service

/-- `disabled={!answers.service}` on the "Lähetä" button of `Service`. -/
def serviceNextDisabled (a : SurveyAnswers) : Bool :=
  !(strTruthy a.service)

/-- The values of the five star buttons rendered by `RatingStars`:
`[1, 2, 3, 4, 5].map((n) => ... onPress={() => onChange(n)} ...)`. -/
def starButtonValues : List Nat := [1, 2, 3, 4, 5]

/-- The `services` picker items of the `Service` screen. -/
def serviceItems : List String :=
  ["Valitse palvelu", "Apuvälinepalvelut", "Fysioterapiapalvelut", "Hoitajavastaanotto",
   "Jalkaterapiapalvelut", "KyläOPTIKKO -optikkopalvelut", "Ohjattu ryhmätoiminta",
   "Osteopatiapalvelut", "Perhevalmennus", "Senioripalvelut",
   "Suun terveydenhuollon palvelut", "Toimintaterapiapalvelut", "Muu"]

/-- `onValueChange`: the placeholder item maps to the empty string,
every other item is stored as-is. -/
def servicePatchValue (v : String) : String :=
  if v == "Valitse palvelu" then "" else v

/-- The state of the app: the react-navigation stack (top of stack first,
initial route `Start` at the bottom) together with the `SurveyProvider`
answers, which live above the navigator and survive navigation. -/
structure FlowState where
  stack : List Screen
  answers : SurveyAnswers
deriving DecidableEq, Repr

/-- The currently visible screen. -/
def FlowState.top (st : FlowState) : Option Screen := st.stack.head?

/-- `navigation.navigate(s)`: if `s` is already in the stack, pop back to
the existing instance, otherwise push a new one. -/
def navigateTo (st : FlowState) (s : Screen) : FlowState :=
  if s ∈ st.stack then { st with stack := st.stack.dropWhile (· ≠ s) }
  else { st with stack := s :: st.stack }

/-- `navigation.goBack()`: pop the top screen. -/
def goBackState (st : FlowState) : FlowState :=
  { st with stack := st.stack.tail }

/-- `navigation.popToTop()`: pop everything above the first route of the
stack, leaving the answers untouched. -/
def popToTopState (st : FlowState) : FlowState :=
  { st with stack := st.stack.drop (st.stack.length - 1) }

/-- `skipService` in the `Service` screen: `update({ service: "" })` then
`navigation.navigate("Submit")`. -/
def skipService (st : FlowState) : FlowState :=
  navigateTo { st with answers := update st.answers { service := some "" } } .Submit

/-- The screens that render a "Takaisin" (back) button. -/
def backScreens : List Screen := [.Q1, .Q2, .Q3, .Q4, .Q5, .OpenFeedback, .Service]

/-- The initial state: stack containing only the initial route `Start`,
answers at their `useState` defaults. -/
def initState : FlowState := { stack := [.Start], answers := initialAnswers }

/-- One user interaction, as wired in src/App.tsx: each constructor is one
pressable or input of one screen, enabled only when that screen is on top
and its `disabled` attribute (if any) is false. -/
inductive Step : FlowState → FlowState → Prop
  | startBegin (st : FlowState) :
      st.top = some .Start → Step st (navigateTo st .Q1)
  | starSelect (st : FlowState) (k : StarKey) (n : Nat) :
      st.top = some (starScreen k) → n ∈ starButtonValues →
      Step st { st with answers := update st.answers (starPatch k n) }
  | starNext (st : FlowState) (k : StarKey) :
      st.top = some (starScreen k) → ratingNextDisabled st.answers k = false →
      Step st (navigateTo st (starNextScreen k))
  | q5Select (st : FlowState) (v : Bool) :
      st.top = some .Q5 →
      Step st { st with answers := update st.answers { q5 := some (some v) } }
  | q5Next (st : FlowState) :
      st.top = some .Q5 → q5NextDisabled st.answers = false →
      Step st (navigateTo st (q5NextTarget st.answers))
  | feedbackChange (st : FlowState) (t : String) :
      st.top = some .OpenFeedback →
      Step st { st with answers := update st.answers { feedback := some t } }
  | feedbackNext (st : FlowState) :
      st.top = some .OpenFeedback → Step st (navigateTo st openFeedbackNextScreen)
  | serviceChange (st : FlowState) (v : String) :
      st.top = some .Service → v ∈ serviceItems →
      Step st { st with answers := update st.answers { service := some (servicePatchValue v) } }
  | serviceSkip (st : FlowState) :
      st.top = some .Service → Step st (skipService st)
  | serviceNext (st : FlowState) :
      st.top = some .Service → serviceNextDisabled st.answers = false →
      Step st (navigateTo st .Submit)
  | back (st : FlowState) (s : Screen) :
      st.top = some s → s ∈ backScreens → 2 ≤ st.stack.length →
      Step st (goBackState st)
  | newResponse (st : FlowState) :
      st.top = some .Submit → Step st (popToTopState st)

/-- A state reachable from the launch state by user interactions. -/
def Reachable (st : FlowState) : Prop :=
  Relation.ReflTransGen Step initState st

/-- Modelled from the spec: the repository has no PersistenceLayer code
under src/ (the Submit screen only carries a comment where the POST would
go), so the §4.3 commit contract is modelled here.  A `SubmitSession`
holds the append-only store together with the session-level
"already committed" flag that the Submit screen must maintain. -/
structure SubmitSession where
  store : List SurveyAnswers
  committed : Bool
deriving DecidableEq, Repr

/-- Modelled from the spec: rendering the Submit screen commits the record
exactly once per session — the first render appends one row, and any
re-render while the committed flag is set is a no-op. -/
def submitRender (st : SubmitSession) (rec : SurveyAnswers) : SubmitSession :=
  if st.committed then st else { store := st.store ++ [rec], committed := true }

/-- Modelled from the spec: encoding of the tri-state flag on write,
§4.3 — unanswered ↦ NULL (absent), false ↦ 0, true ↦ 1.  No storage code
exists under src/. -/
def encodeQ5 : Option Bool → Option Int
  | none => none
  | some false => some 0
  | some true => some 1

/-- Modelled from the spec: decoding of the stored tri-state flag on read,
§4.3 — NULL ↦ unanswered, 0 ↦ false, any other stored integer (the schema
only ever writes 1) ↦ true. -/
def decodeQ5 : Option Int → Option Bool
  | none => none
  | some 0 => some false
  | some _ => some true

/-- Character-level helper: double every double-quote, leave every other
character unchanged. -/
def escQuotes : List Char → List Char
  | [] => []
  | c :: cs => if c = '"' then '"' :: '"' :: escQuotes cs else c :: escQuotes cs

/-- Modelled from the spec: the §4.4 escaping predicate — a field needs
quoting iff it contains a comma, a double quote, or a newline.  No
ExportService code exists under src/. -/
def csvNeedsQuote (s : String) : Bool :=
  s.data.any fun c => c == ',' || c == '"' || c == '\n'

/-- Modelled from the spec: render one CSV field — wrap in double quotes
with internal double quotes doubled exactly when the field contains a
comma, double quote, or newline; otherwise emit it verbatim. -/
def csvField (s : String) : String :=
  if csvNeedsQuote s then ⟨'"' :: (escQuotes s.data ++ ['"'])⟩ else s

/-- A standard CSV reader's treatment of doubled quotes inside a quoted
field: each `""` pair collapses to one `"`. -/
def unescQuotes : List Char → List Char
  | [] => []
  | [c] => [c]
  | c₁ :: c₂ :: cs =>
    if c₁ = '"' ∧ c₂ = '"' then '"' :: unescQuotes cs
    else c₁ :: unescQuotes (c₂ :: cs)

/-- A standard CSV parser's reading of one field: a field starting with a
double quote is unquoted (outer quotes stripped, doubled quotes
collapsed), any other field is taken verbatim. -/
def csvParseField (s : String) : String :=
  match s.data with
  | '"' :: rest => ⟨unescQuotes rest.dropLast⟩
  | _ => s

/-- Modelled from the spec: a durable record — the answers plus assigned
identity and creation timestamp (§3, StoredRecord). -/
structure StoredRecord where
  id : Nat
  createdAt : String
  q1 : Nat
  q2 : Nat
  q3 : Nat
  q4 : Nat
  q5 : Option Bool
  feedback : String
  service : String
deriving DecidableEq, Repr

/-- Modelled from the spec: the export rendering of the tri-state flag —
empty string for unanswered, "0" for false, "1" for true (§4.4). -/
def renderFlag : Option Bool → String
  | none => ""
  | some false => "0"
  | some true => "1"

/-- Modelled from the spec: the fixed column values of one record, in
export column order (§4.4). -/
def rowFields (r : StoredRecord) : List String :=
  [toString r.id, r.createdAt, toString r.q1, toString r.q2, toString r.q3,
   toString r.q4, renderFlag r.q5, r.feedback, r.service]

/-- The fixed CSV header row (§6). -/
def csvHeader : String := "id,created_at,q1,q2,q3,q4,q5,feedback,service"

/-- Modelled from the spec: `exportAll` — header row plus one row per
stored record, every field passed through the same `csvField` escaping,
fields joined with commas and lines with newlines (§4.4, §6). -/
def exportAll (rs : List StoredRecord) : String :=
  String.intercalate "\n"
    (csvHeader :: rs.map fun r => String.intercalate "," ((rowFields r).map csvField))

/-- The validity property of the four ratings: each is the 0 sentinel or a
star value in 1..5. -/
def ratingsValid (a : SurveyAnswers) : Prop :=
  ∀ k : StarKey, a.star k = 0 ∨ (1 ≤ a.star k ∧ a.star k ≤ 5)

/-!  Helper lemmas about the navigation-stack operations. -/

theorem head_dropWhile_ne (s : Screen) (l : List Screen) (h : s ∈ l) :
    (List.dropWhile (· ≠ s) l).head? = some s := by
  induction l with
  | nil => cases h
  | cons a l ih =>
    rw [List.dropWhile_cons]
    by_cases ha : a = s
    · subst ha; simp
    · rw [if_pos (by simp [ha])]
      rcases List.mem_cons.mp h with h1 | h1
      · exact absurd h1.symm ha
      · exact ih h1

theorem navigateTo_top (st : FlowState) (s : Screen) : (navigateTo st s).top = some s := by
  unfold navigateTo FlowState.top
  split
  · exact head_dropWhile_ne s st.stack (by assumption)
  · rfl

theorem navigateTo_answers (st : FlowState) (s : Screen) :
    (navigateTo st s).answers = st.answers := by
  unfold navigateTo
  split <;> rfl

theorem step_of_eq {s t t' : FlowState} (h : Step s t) (e : t = t') : Step s t' := e ▸ h

/-- C3: for each of the four rating screens, the "next" action is disabled
iff that screen's rating equals the unanswered sentinel 0, and is enabled
for every rating value in 1..5. -/
theorem c3_rating_gate (a : SurveyAnswers) (k : StarKey) :
    (ratingNextDisabled a k = true ↔ a.star k = 0) ∧
    (1 ≤ a.star k → a.star k ≤ 5 → ratingNextDisabled a k = false) := by
  constructor
  · simp [ratingNextDisabled, numTruthy]
  · intro h1 _
    simp [ratingNextDisabled, numTruthy]
    omega

theorem c3_rating_gate_witness :
    ratingNextDisabled { initialAnswers with q1 := 3 } .q1 = false :=
  (c3_rating_gate { initialAnswers with q1 := 3 } .q1).2 (by decide) (by decide)

/-- C4: from Q5, a true flag navigates to OpenFeedback (whose own "next"
then goes to Service), a false flag navigates directly to Service, and an
unanswered flag leaves the "next" action disabled. -/
theorem c4_q5_branch (a : SurveyAnswers) :
    (a.q5 = some true → q5NextTarget a = .OpenFeedback) ∧
    (a.q5 = some false → q5NextTarget a = .Service) ∧
    (a.q5 = none → q5NextDisabled a = true) ∧
    openFeedbackNextScreen = .Service := by
  refine ⟨?_, ?_, ?_, rfl⟩ <;> intro h <;> simp [q5NextTarget, q5NextDisabled, q5Truthy, h]

theorem c4_q5_branch_witness :
    q5NextTarget { initialAnswers with q5 := some true } = .OpenFeedback :=
  (c4_q5_branch { initialAnswers with q5 := some true }).1 rfl

/-- C5: from the Service screen, the decline-to-disclose action sets the
category to the empty string and advances to Submit for every prior
category value, while the normal advance is enabled iff the category is
non-empty. -/
theorem c5_decline_to_disclose (st : FlowState) (h : st.top = some .Service) :
    Step st (skipService st) ∧
    (skipService st).answers.service = "" ∧
    (skipService st).top = some .Submit ∧
    (serviceNextDisabled st.answers = false ↔ st.answers.service ≠ "") := by
  refine ⟨Step.serviceSkip st h, ?_, ?_, ?_⟩
  · rw [skipService, navigateTo_answers]
    rfl
  · exact navigateTo_top _ _
  · simp [serviceNextDisabled, strTruthy]

theorem c5_decline_to_disclose_witness :
    Step ⟨[.Service, .Start], { initialAnswers with service := "Muu" }⟩
        (skipService ⟨[.Service, .Start], { initialAnswers with service := "Muu" }⟩) ∧
    (skipService ⟨[.Service, .Start], { initialAnswers with service := "Muu" }⟩).answers.service
        = "" ∧
    (skipService ⟨[.Service, .Start], { initialAnswers with service := "Muu" }⟩).top
        = some .Submit ∧
    (serviceNextDisabled { initialAnswers with service := "Muu" } = false ↔
      ({ initialAnswers with service := "Muu" } : SurveyAnswers).service ≠ "") :=
  c5_decline_to_disclose ⟨[.Service, .Start], { initialAnswers with service := "Muu" }⟩ rfl

/-- C6: the `update` merge writes exactly the fields present in the patch
and leaves every absent field unchanged, for every record and patch. -/
theorem c6_patch_frame (s : SurveyAnswers) (p : SurveyPatch) :
    ((p.q1 = none → (update s p).q1 = s.q1) ∧ ∀ v, p.q1 = some v → (update s p).q1 = v) ∧
    ((p.q2 = none → (update s p).q2 = s.q2) ∧ ∀ v, p.q2 = some v → (update s p).q2 = v) ∧
    ((p.q3 = none → (update s p).q3 = s.q3) ∧ ∀ v, p.q3 = some v → (update s p).q3 = v) ∧
    ((p.q4 = none → (update s p).q4 = s.q4) ∧ ∀ v, p.q4 = some v → (update s p).q4 = v) ∧
    ((p.q5 = none → (update s p).q5 = s.q5) ∧ ∀ v, p.q5 = some v → (update s p).q5 = v) ∧
    ((p.feedback = none → (update s p).feedback = s.feedback) ∧
      ∀ v, p.feedback = some v → (update s p).feedback = v) ∧
    ((p.service = none → (update s p).service = s.service) ∧
      ∀ v, p.service = some v → (update s p).service = v) := by
  refine ⟨⟨fun h => ?_, fun v h => ?_⟩, ⟨fun h => ?_, fun v h => ?_⟩,
    ⟨fun h => ?_, fun v h => ?_⟩, ⟨fun h => ?_, fun v h => ?_⟩,
    ⟨fun h => ?_, fun v h => ?_⟩, ⟨fun h => ?_, fun v h => ?_⟩,
    ⟨fun h => ?_, fun v h => ?_⟩⟩ <;> simp [update, h]

theorem c6_patch_frame_witness :
    (update initialAnswers { q1 := some 4 }).q1 = 4 ∧
    (update initialAnswers { q1 := some 4 }).feedback = initialAnswers.feedback :=
  ⟨(c6_patch_frame initialAnswers { q1 := some 4 }).1.2 4 rfl,
   (c6_patch_frame initialAnswers { q1 := some 4 }).2.2.2.2.2.1.1 rfl⟩

/-- C9: encoding the tri-state flag into storage and decoding it back is
the identity on all three values — unanswered through NULL, false through
0, true through 1. -/
theorem c9_flag_roundtrip :
    (∀ v : Option Bool, decodeQ5 (encodeQ5 v) = v) ∧
    encodeQ5 none = none ∧ encodeQ5 (some true) = some 1 ∧ encodeQ5 (some false) = some 0 ∧
    decodeQ5 none = none ∧ decodeQ5 (some 1) = some true ∧ decodeQ5 (some 0) = some false := by
  refine ⟨?_, rfl, rfl, rfl, rfl, rfl, rfl⟩
  rintro (_ | _ | _) <;> rfl

/-- C1: with the spec-modelled commit contract, a session arriving at the
Submit screen with an uncommitted record appends exactly one stored record
on the first render, and any re-render of the Submit screen afterwards
leaves the store unchanged. -/
theorem c1_commit_exactly_once (st : SubmitSession) (rec : SurveyAnswers)
    (h : st.committed = false) :
    (submitRender st rec).store = st.store ++ [rec] ∧
    (submitRender st rec).committed = true ∧
    submitRender (submitRender st rec) rec = submitRender st rec := by
  simp [submitRender, h]

theorem c1_commit_exactly_once_witness :
    (submitRender ⟨[], false⟩ initialAnswers).store = [] ++ [initialAnswers] ∧
    (submitRender ⟨[], false⟩ initialAnswers).committed = true ∧
    submitRender (submitRender ⟨[], false⟩ initialAnswers) initialAnswers
      = submitRender ⟨[], false⟩ initialAnswers :=
  c1_commit_exactly_once ⟨[], false⟩ initialAnswers rfl

/-- The answers of a concrete completed session, as they stand on the
Submit screen. -/
def completedAnswers : SurveyAnswers :=
  { q1 := 5, q2 := 4, q3 := 5, q4 := 3, q5 := some false, feedback := "", service := "Muu" }

/-- A concrete state showing the Submit screen after a full pass through
the flow. -/
def completedSubmitState : FlowState :=
  ⟨[.Submit, .Service, .Q5, .Q4, .Q3, .Q2, .Q1, .Start], completedAnswers⟩

/-- C2: the "Uusi vastaus" (new response) action on the Submit screen only
calls `navigation.popToTop()`; it returns control to Start but leaves the
session record exactly as it was — the record is NOT reset to the
all-default state, contradicting the claim. -/
theorem c2_new_response_does_not_reset :
    Step completedSubmitState (popToTopState completedSubmitState) ∧
    (popToTopState completedSubmitState).top = some .Start ∧
    (popToTopState completedSubmitState).answers = completedAnswers ∧
    completedAnswers ≠ initialAnswers :=
  ⟨Step.newResponse completedSubmitState rfl, by decide, rfl, by decide⟩

theorem star_update_starPatch (a : SurveyAnswers) (k : StarKey) (n : Nat) (j : StarKey) :
    (update a (starPatch k n)).star j = if j = k then n else a.star j := by
  cases k <;> cases j <;> rfl

theorem star_update_q5 (a : SurveyAnswers) (x : Option Bool) (j : StarKey) :
    (update a { q5 := some x }).star j = a.star j := by
  cases j <;> rfl

theorem star_update_feedback (a : SurveyAnswers) (t : String) (j : StarKey) :
    (update a { feedback := some t }).star j = a.star j := by
  cases j <;> rfl

theorem star_update_service (a : SurveyAnswers) (v : String) (j : StarKey) :
    (update a { service := some v }).star j = a.star j := by
  cases j <;> rfl

/-- C7: the only rating values the flow's own controls can write are the
five star-button values 1..5, and the "each rating is 0 or in 1..5"
invariant is preserved by every interaction of the flow. -/
theorem c7_rating_range_invariant :
    (∀ n ∈ starButtonValues, 1 ≤ n ∧ n ≤ 5) ∧
    (∀ st st' : FlowState, Step st st' → ratingsValid st.answers → ratingsValid st'.answers) := by
  constructor
  · intro n hn
    simp [starButtonValues] at hn
    omega
  · intro st st' hstep hval
    cases hstep with
    | startBegin h => intro j; rw [navigateTo_answers]; exact hval j
    | starSelect k n h hn =>
      intro j
      show (update st.answers (starPatch k n)).star j = 0 ∨ _
      rw [star_update_starPatch]
      by_cases hj : j = k
      · subst hj
        rw [if_pos rfl]
        right
        simp only [starButtonValues, List.mem_cons, List.not_mem_nil, or_false] at hn
        rcases hn with rfl | rfl | rfl | rfl | rfl <;> omega
      · rw [if_neg hj]
        exact hval j
    | starNext k h hd => intro j; rw [navigateTo_answers]; exact hval j
    | q5Select v h =>
      intro j
      show (update st.answers { q5 := some (some v) }).star j = 0 ∨ _
      rw [star_update_q5]
      exact hval j
    | q5Next h hd => intro j; rw [navigateTo_answers]; exact hval j
    | feedbackChange t h =>
      intro j
      show (update st.answers { feedback := some t }).star j = 0 ∨ _
      rw [star_update_feedback]
      exact hval j
    | feedbackNext h => intro j; rw [navigateTo_answers]; exact hval j
    | serviceChange v h hv =>
      intro j
      show (update st.answers { service := some (servicePatchValue v) }).star j = 0 ∨ _
      rw [star_update_service]
      exact hval j
    | serviceSkip h =>
      intro j
      show (skipService st).answers.star j = 0 ∨ _
      rw [skipService, navigateTo_answers]
      show (update st.answers { service := some "" }).star j = 0 ∨ _
      rw [star_update_service]
      exact hval j
    | serviceNext h hd => intro j; rw [navigateTo_answers]; exact hval j
    | back s h hs hl => intro j; exact hval j
    | newResponse h => intro j; exact hval j

theorem c7_rating_range_invariant_witness :
    ratingsValid (navigateTo initState .Q1).answers :=
  c7_rating_range_invariant.2 initState (navigateTo initState .Q1)
    (Step.startBegin initState rfl)
    (fun k => by cases k <;> exact Or.inl rfl)

theorem unesc_cons_ne (c : Char) (hc : c ≠ '"') (l : List Char) :
    unescQuotes (c :: l) = c :: unescQuotes l := by
  cases l with
  | nil => rfl
  | cons d ds =>
    rw [unescQuotes]
    rw [if_neg fun h => hc h.1]

theorem unesc_esc (l : List Char) : unescQuotes (escQuotes l) = l := by
  induction l with
  | nil => rfl
  | cons c cs ih =>
    by_cases hc : c = '"'
    · subst hc
      rw [escQuotes, if_pos rfl, unescQuotes, if_pos ⟨rfl, rfl⟩, ih]
    · rw [escQuotes, if_neg hc, unesc_cons_ne c hc, ih]

theorem csv_roundtrip (s : String) : csvParseField (csvField s) = s := by
  by_cases h : csvNeedsQuote s
  · rw [csvField, if_pos h]
    show (⟨unescQuotes ((escQuotes s.data ++ ['"']).dropLast)⟩ : String) = s
    rw [List.dropLast_concat, unesc_esc]
  · rw [csvField, if_neg h]
    unfold csvParseField
    split
    · rename_i heq
      exact absurd (by simp [csvNeedsQuote, heq]) h
    · rfl

/-- C8: a field containing a comma, double quote, or newline — and only
such a field — is wrapped in double quotes with internal quotes doubled;
every field re-parses to its original value under a standard CSV parser,
and `exportAll` applies the same escaping to every field of every
record. -/
theorem c8_csv_escaping (s : String) :
    (csvNeedsQuote s = true → csvField s = ⟨'"' :: (escQuotes s.data ++ ['"'])⟩) ∧
    (csvNeedsQuote s = false → csvField s = s) ∧
    csvParseField (csvField s) = s ∧
    (∀ rs : List StoredRecord, exportAll rs = String.intercalate "\n"
      (csvHeader :: rs.map fun r => String.intercalate "," ((rowFields r).map csvField))) ∧
    (∀ r : StoredRecord, (rowFields r).map (fun f => csvParseField (csvField f)) = rowFields r) := by
  refine ⟨fun h => ?_, fun h => ?_, csv_roundtrip s, fun rs => rfl, fun r => ?_⟩
  · rw [csvField, if_pos h]
  · rw [csvField, if_neg (by simp [h])]
  · simp [rowFields, csv_roundtrip]

theorem c8_csv_escaping_witness :
    csvNeedsQuote "He said, \"ok\"\nthanks" = true ∧
    csvParseField (csvField "He said, \"ok\"\nthanks") = "He said, \"ok\"\nthanks" ∧
    csvField "He said, \"ok\"\nthanks" = "\"He said, \"\"ok\"\"\nthanks\"" :=
  ⟨by decide, (c8_csv_escaping "He said, \"ok\"\nthanks").2.2.1, by decide⟩

/-- C10: resolving the tri-state flag on Q5 patches only the flag field
(every other field, the feedback in particular, is untouched), and a
session that answers yes on Q5, types feedback, navigates back and
answers no reaches Submit with the flag false and non-empty feedback. -/
theorem c10_flag_select_frame_and_reachability :
    (∀ (a : SurveyAnswers) (v : Bool),
      update a { q5 := some (some v) } = { a with q5 := some v }) ∧
    ∃ st : FlowState, Reachable st ∧ st.top = some .Submit ∧
      st.answers.q5 = some false ∧ st.answers.feedback ≠ "" := by
  refine ⟨fun a v => rfl, ⟨(⟨[.Submit, .Service, .Q5, .Q4, .Q3, .Q2, .Q1, .Start], ⟨5, 5, 5, 5, some false, "kiitos", "Muu"⟩⟩ : FlowState), ?_, by decide, by decide, by decide⟩⟩
  have h1 : Step initState
      (⟨[.Q1, .Start], ⟨0, 0, 0, 0, none, "", ""⟩⟩ : FlowState) :=
    step_of_eq (Step.startBegin initState (by decide)) (by decide)
  have h2 : Step (⟨[.Q1, .Start], ⟨0, 0, 0, 0, none, "", ""⟩⟩ : FlowState)
      (⟨[.Q1, .Start], ⟨5, 0, 0, 0, none, "", ""⟩⟩ : FlowState) :=
    step_of_eq (Step.starSelect (⟨[.Q1, .Start], ⟨0, 0, 0, 0, none, "", ""⟩⟩ : FlowState) .q1 5 (by decide) (by decide)) (by decide)
  have h3 : Step (⟨[.Q1, .Start], ⟨5, 0, 0, 0, none, "", ""⟩⟩ : FlowState)
      (⟨[.Q2, .Q1, .Start], ⟨5, 0, 0, 0, none, "", ""⟩⟩ : FlowState) :=
    step_of_eq (Step.starNext (⟨[.Q1, .Start], ⟨5, 0, 0, 0, none, "", ""⟩⟩ : FlowState) .q1 (by decide) (by decide)) (by decide)
  have h4 : Step (⟨[.Q2, .Q1, .Start], ⟨5, 0, 0, 0, none, "", ""⟩⟩ : FlowState)
      (⟨[.Q2, .Q1, .Start], ⟨5, 5, 0, 0, none, "", ""⟩⟩ : FlowState) :=
    step_of_eq (Step.starSelect (⟨[.Q2, .Q1, .Start], ⟨5, 0, 0, 0, none, "", ""⟩⟩ : FlowState) .q2 5 (by decide) (by decide)) (by decide)
  have h5 : Step (⟨[.Q2, .Q1, .Start], ⟨5, 5, 0, 0, none, "", ""⟩⟩ : FlowState)
      (⟨[.Q3, .Q2, .Q1, .Start], ⟨5, 5, 0, 0, none, "", ""⟩⟩ : FlowState) :=
    step_of_eq (Step.starNext (⟨[.Q2, .Q1, .Start], ⟨5, 5, 0, 0, none, "", ""⟩⟩ : FlowState) .q2 (by decide) (by decide)) (by decide)
  have h6 : Step (⟨[.Q3, .Q2, .Q1, .Start], ⟨5, 5, 0, 0, none, "", ""⟩⟩ : FlowState)
      (⟨[.Q3, .Q2, .Q1, .Start], ⟨5, 5, 5, 0, none, "", ""⟩⟩ : FlowState) :=
    step_of_eq (Step.starSelect (⟨[.Q3, .Q2, .Q1, .Start], ⟨5, 5, 0, 0, none, "", ""⟩⟩ : FlowState) .q3 5 (by decide) (by decide)) (by decide)
  have h7 : Step (⟨[.Q3, .Q2, .Q1, .Start], ⟨5, 5, 5, 0, none, "", ""⟩⟩ : FlowState)
      (⟨[.Q4, .Q3, .Q2, .Q1, .Start], ⟨5, 5, 5, 0, none, "", ""⟩⟩ : FlowState) :=
    step_of_eq (Step.starNext (⟨[.Q3, .Q2, .Q1, .Start], ⟨5, 5, 5, 0, none, "", ""⟩⟩ : FlowState) .q3 (by decide) (by decide)) (by decide)
  have h8 : Step (⟨[.Q4, .Q3, .Q2, .Q1, .Start], ⟨5, 5, 5, 0, none, "", ""⟩⟩ : FlowState)
      (⟨[.Q4, .Q3, .Q2, .Q1, .Start], ⟨5, 5, 5, 5, none, "", ""⟩⟩ : FlowState) :=
    step_of_eq (Step.starSelect (⟨[.Q4, .Q3, .Q2, .Q1, .Start], ⟨5, 5, 5, 0, none, "", ""⟩⟩ : FlowState) .q4 5 (by decide) (by decide)) (by decide)
  have h9 : Step (⟨[.Q4, .Q3, .Q2, .Q1, .Start], ⟨5, 5, 5, 5, none, "", ""⟩⟩ : FlowState)
      (⟨[.Q5, .Q4, .Q3, .Q2, .Q1, .Start], ⟨5, 5, 5, 5, none, "", ""⟩⟩ : FlowState) :=
    step_of_eq (Step.starNext (⟨[.Q4, .Q3, .Q2, .Q1, .Start], ⟨5, 5, 5, 5, none, "", ""⟩⟩ : FlowState) .q4 (by decide) (by decide)) (by decide)
  have h10 : Step (⟨[.Q5, .Q4, .Q3, .Q2, .Q1, .Start], ⟨5, 5, 5, 5, none, "", ""⟩⟩ : FlowState)
      (⟨[.Q5, .Q4, .Q3, .Q2, .Q1, .Start], ⟨5, 5, 5, 5, some true, "", ""⟩⟩ : FlowState) :=
    step_of_eq (Step.q5Select (⟨[.Q5, .Q4, .Q3, .Q2, .Q1, .Start], ⟨5, 5, 5, 5, none, "", ""⟩⟩ : FlowState) true (by decide)) (by decide)
  have h11 : Step (⟨[.Q5, .Q4, .Q3, .Q2, .Q1, .Start], ⟨5, 5, 5, 5, some true, "", ""⟩⟩ : FlowState)
      (⟨[.OpenFeedback, .Q5, .Q4, .Q3, .Q2, .Q1, .Start], ⟨5, 5, 5, 5, some true, "", ""⟩⟩ : FlowState) :=
    step_of_eq (Step.q5Next (⟨[.Q5, .Q4, .Q3, .Q2, .Q1, .Start], ⟨5, 5, 5, 5, some true, "", ""⟩⟩ : FlowState) (by decide) (by decide)) (by decide)
  have h12 : Step (⟨[.OpenFeedback, .Q5, .Q4, .Q3, .Q2, .Q1, .Start], ⟨5, 5, 5, 5, some true, "", ""⟩⟩ : FlowState)
      (⟨[.OpenFeedback, .Q5, .Q4, .Q3, .Q2, .Q1, .Start], ⟨5, 5, 5, 5, some true, "kiitos", ""⟩⟩ : FlowState) :=
    step_of_eq (Step.feedbackChange (⟨[.OpenFeedback, .Q5, .Q4, .Q3, .Q2, .Q1, .Start], ⟨5, 5, 5, 5, some true, "", ""⟩⟩ : FlowState) "kiitos" (by decide)) (by decide)
  have h13 : Step (⟨[.OpenFeedback, .Q5, .Q4, .Q3, .Q2, .Q1, .Start], ⟨5, 5, 5, 5, some true, "kiitos", ""⟩⟩ : FlowState)
      (⟨[.Q5, .Q4, .Q3, .Q2, .Q1, .Start], ⟨5, 5, 5, 5, some true, "kiitos", ""⟩⟩ : FlowState) :=
    step_of_eq (Step.back (⟨[.OpenFeedback, .Q5, .Q4, .Q3, .Q2, .Q1, .Start], ⟨5, 5, 5, 5, some true, "kiitos", ""⟩⟩ : FlowState) .OpenFeedback (by decide) (by decide) (by decide)) (by decide)
  have h14 : Step (⟨[.Q5, .Q4, .Q3, .Q2, .Q1, .Start], ⟨5, 5, 5, 5, some true, "kiitos", ""⟩⟩ : FlowState)
      (⟨[.Q5, .Q4, .Q3, .Q2, .Q1, .Start], ⟨5, 5, 5, 5, some false, "kiitos", ""⟩⟩ : FlowState) :=
    step_of_eq (Step.q5Select (⟨[.Q5, .Q4, .Q3, .Q2, .Q1, .Start], ⟨5, 5, 5, 5, some true, "kiitos", ""⟩⟩ : FlowState) false (by decide)) (by decide)
  have h15 : Step (⟨[.Q5, .Q4, .Q3, .Q2, .Q1, .Start], ⟨5, 5, 5, 5, some false, "kiitos", ""⟩⟩ : FlowState)
      (⟨[.Service, .Q5, .Q4, .Q3, .Q2, .Q1, .Start], ⟨5, 5, 5, 5, some false, "kiitos", ""⟩⟩ : FlowState) :=
    step_of_eq (Step.q5Next (⟨[.Q5, .Q4, .Q3, .Q2, .Q1, .Start], ⟨5, 5, 5, 5, some false, "kiitos", ""⟩⟩ : FlowState) (by decide) (by decide)) (by decide)
  have h16 : Step (⟨[.Service, .Q5, .Q4, .Q3, .Q2, .Q1, .Start], ⟨5, 5, 5, 5, some false, "kiitos", ""⟩⟩ : FlowState)
      (⟨[.Service, .Q5, .Q4, .Q3, .Q2, .Q1, .Start], ⟨5, 5, 5, 5, some false, "kiitos", "Muu"⟩⟩ : FlowState) :=
    step_of_eq (Step.serviceChange (⟨[.Service, .Q5, .Q4, .Q3, .Q2, .Q1, .Start], ⟨5, 5, 5, 5, some false, "kiitos", ""⟩⟩ : FlowState) "Muu" (by decide) (by decide)) (by decide)
  have h17 : Step (⟨[.Service, .Q5, .Q4, .Q3, .Q2, .Q1, .Start], ⟨5, 5, 5, 5, some false, "kiitos", "Muu"⟩⟩ : FlowState)
      (⟨[.Submit, .Service, .Q5, .Q4, .Q3, .Q2, .Q1, .Start], ⟨5, 5, 5, 5, some false, "kiitos", "Muu"⟩⟩ : FlowState) :=
    step_of_eq (Step.serviceNext (⟨[.Service, .Q5, .Q4, .Q3, .Q2, .Q1, .Start], ⟨5, 5, 5, 5, some false, "kiitos", "Muu"⟩⟩ : FlowState) (by decide) (by decide)) (by decide)
  exact (((((((((((((((((Relation.ReflTransGen.refl.tail h1).tail h2).tail h3).tail h4).tail h5).tail h6).tail h7).tail h8).tail h9).tail h10).tail h11).tail h12).tail h13).tail h14).tail h15).tail h16).tail h17)

end HymyPassi
